import Mathlib

/-!
Verification of the hangman evaluation engine (`hangman_eval/hangman.py`).

Python strings are modelled as `List Char`; Python `int` as `Int` (it can go
negative); Python exceptions as explicit error values.  `GameState.guess`
mutates the object in Python, so here it returns the post-call state together
with an optional error; when the error is raised the paired state is the state
of the object at the moment of the raise (which precedes every mutation).
-/

/-- Python strings, modelled as lists of characters. -/
abbrev Str := List Char

/-- Python `str.lower()`: lowercase every character. -/
def pyLower (s : Str) : Str := s.map Char.toLower

/-- Python `str(int)`. -/
def pyStrInt (n : Int) : Str := (toString n).toList

/-- Python `str(bool)`: `True` / `False`. -/
def pyStrBool : Bool → Str
  | true => "True".toList
  | false => "False".toList

/-- Python `str(list_of_single_char_strings)`, e.g. `['a', 'b']`. -/
def pyReprStrList (l : List Char) : Str :=
  "[".toList ++
    List.intercalate ", ".toList (l.map (fun c => [Char.ofNat 39, c, Char.ofNat 39])) ++
  "]".toList

/-- The `GameState` dataclass of `hangman.py`. -/
structure GameState where
  word : Str
  guessed_letters : List Char
  remaining_guesses : Int
  game_over : Bool
  won : Bool
deriving DecidableEq, Repr

/-- The `GameState.start` static method: lowercase the word, no guesses yet. -/
def GameState.start (word : Str) (max_guesses : Int) : GameState :=
  { word := pyLower word
    guessed_letters := []
    remaining_guesses := max_guesses
    game_over := false
    won := false }

/-- The per-letter tokens of the `current_state` property: each letter of the
word shown if guessed, `'_'` otherwise. -/
def GameState.displayTokens (s : GameState) : List Str :=
  s.word.map (fun letter => if letter ∈ s.guessed_letters then [letter] else ['_'])

/-- The `current_state` property: `" ".join(letter if letter in guessed_letters
else "_" for letter in word)`. -/
def GameState.current_state (s : GameState) : Str :=
  List.intercalate [' '] s.displayTokens

/-- The `incorrect_guesses` property: `sorted(list(set(guessed_letters) - set(word)))`. -/
def GameState.incorrect_guesses (s : GameState) : List Char :=
  ((s.guessed_letters.filter (fun c => !(s.word.contains c))).dedup).mergeSort
    (fun a b => a ≤ b)

/-- The `ValueError("Guess must be a single letter")` raised by `guess`. -/
inductive GuessError
  | InvalidGuess
deriving DecidableEq, Repr

/-- The `GameState.guess` method.  Returns `(error?, post-call state)`; the
error is raised before any mutation, so on error the state is unchanged. -/
def GameState.guess (s : GameState) (letter : Str) : Option GuessError × GameState :=
  if s.game_over then
    (none, s)
  else
    match pyLower letter with
    | [c] =>
      if ¬ c.isAlpha then
        (some GuessError.InvalidGuess, s)
      else if c ∈ s.guessed_letters then
        (none, s)
      else
        let s1 : GameState :=
          { s with
            guessed_letters := s.guessed_letters ++ [c]
            remaining_guesses :=
              if c ∉ s.word then s.remaining_guesses - 1 else s.remaining_guesses }
        let s2 : GameState :=
          if s1.word.all (fun l => l ∈ s1.guessed_letters) then
            { s1 with game_over := true, won := true }
          else s1
        let s3 : GameState :=
          if s2.remaining_guesses ≤ 0 then { s2 with game_over := true } else s2
        (none, s3)
    | _ => (some GuessError.InvalidGuess, s)

/-- The dictionary returned by the `hangman_guess` tool. -/
structure Snapshot where
  current_state : Str
  remaining_guesses : Int
  incorrect_guesses : List Char
  game_over : Bool
  won : Bool
  language : Str
deriving DecidableEq, Repr

/-- Errors escaping the `hangman_guess` tool: the `RuntimeError` for a missing
game, or a propagated `ValueError` from `GameState.guess`. -/
inductive ToolError
  | UninitializedGame
  | guessFailed (e : GuessError)
deriving DecidableEq, Repr

/-- The response dictionary built at the end of the tool body. -/
def mkSnapshot (gs : GameState) (language : Str) : Snapshot :=
  { current_state := gs.current_state
    remaining_guesses := gs.remaining_guesses
    incorrect_guesses := gs.incorrect_guesses
    game_over := gs.game_over
    won := gs.won
    language := language }

/-- The `hangman_guess` tool body: the stored game state and language are
passed explicitly; the result pairs the game state after the call with the
returned snapshot. -/
def hangman_guess (game_state : Option GameState) (language : Str) (letter : Str) :
    Except ToolError (GameState × Snapshot) :=
  match game_state with
  | none => Except.error ToolError.UninitializedGame
  | some gs =>
    if ¬ gs.game_over then
      match gs.guess letter with
      | (some e, _) => Except.error (ToolError.guessFailed e)
      | (none, gs2) => Except.ok (gs2, mkSnapshot gs2 language)
    else
      Except.ok (gs, mkSnapshot gs language)

/-- The sample metadata dictionary read by `game_initialiser`, each key
optional (`metadata.get`). -/
structure Metadata where
  word : Option Str
  max_guesses : Option Int
  language : Option Str
  difficulty : Option Int
  allow_word_guesses : Option Bool
deriving DecidableEq, Repr

/-- The `RuntimeError("No word provided in metadata")`. -/
inductive InitError
  | MissingWord
deriving DecidableEq, Repr

/-- The `hangman:metadata` record stored by the initialiser. -/
structure StoredMetadata where
  language : Str
  difficulty : Int
  allow_word_guesses : Bool
deriving DecidableEq, Repr

/-- `DEFAULT_MAX_GUESSES = 10`. -/
def DEFAULT_MAX_GUESSES : Int := 10

/-- `DEFAULT_LANGUAGE = Language.ENGLISH`, whose value is `"english"`. -/
def DEFAULT_LANGUAGE : Str := "english".toList

/-- The `game_initialiser` solver body: fails when no word is present
(`if not word`, so both a missing key and an empty string fail), otherwise
builds the `GameState` via `start` and the stored metadata record. -/
def game_initialiser (metadata : Metadata) : Except InitError (GameState × StoredMetadata) :=
  match metadata.word with
  | none => Except.error InitError.MissingWord
  | some w =>
    if w = [] then
      Except.error InitError.MissingWord
    else
      Except.ok
        (GameState.start w (metadata.max_guesses.getD DEFAULT_MAX_GUESSES),
         { language := metadata.language.getD DEFAULT_LANGUAGE
           difficulty := metadata.difficulty.getD 3
           allow_word_guesses := metadata.allow_word_guesses.getD false })

/-- The `CORRECT` / `INCORRECT` score values. -/
inductive ScoreValue
  | CORRECT
  | INCORRECT
deriving DecidableEq, Repr

/-- The `Score` produced by the scorer. -/
structure Score where
  value : ScoreValue
  answer : Str
  explanation : Str
deriving DecidableEq, Repr

/-- The `RuntimeError("No game state found in store")`. -/
inductive ScorerError
  | MissingGameState
deriving DecidableEq, Repr

/-- The explanation f-string of the early-guess branch of `game_scorer`. -/
def earlyExplanation (gs : GameState) (language : Str) (difficulty : Int)
    (guessed_word : Str) : Str :=
  "Early guess. Word: ".toList ++ gs.word ++ ". Language: ".toList ++ language ++
  ". ".toList ++
  "Difficulty: ".toList ++ pyStrInt difficulty ++ "/5. ".toList ++
  "Guessed word: ".toList ++ guessed_word ++ ". ".toList ++
  "Guessed letters: ".toList ++ pyReprStrList gs.guessed_letters ++ ". ".toList ++
  "Final word state: ".toList ++ gs.current_state ++ ". ".toList ++
  "Remaining guesses: ".toList ++ pyStrInt gs.remaining_guesses ++ ". ".toList

/-- The explanation f-string of the game-ended branch of `game_scorer` (note
the missing space after `/5.`, exactly as in the source). -/
def endedExplanation (gs : GameState) (language : Str) (difficulty : Int) : Str :=
  "Game ended. Word: ".toList ++ gs.word ++ ". Language: ".toList ++ language ++
  ". ".toList ++
  "Difficulty: ".toList ++ pyStrInt difficulty ++ "/5.".toList ++
  "Won: ".toList ++ pyStrBool gs.won ++ ". ".toList ++
  "Guessed letters: ".toList ++ pyReprStrList gs.guessed_letters ++ ". ".toList ++
  "Final word state: ".toList ++ gs.current_state ++ ". ".toList ++
  "Remaining guesses: ".toList ++ pyStrInt gs.remaining_guesses ++ ". ".toList

/-- The `game_scorer` body: stored game state passed explicitly, stored
metadata record, and `state.output.completion` as `completion`. -/
def game_scorer (game_state : Option GameState) (metadata : StoredMetadata)
    (completion : Str) : Except ScorerError Score :=
  match game_state with
  | none => Except.error ScorerError.MissingGameState
  | some gs =>
    if metadata.allow_word_guesses ∧ ¬ gs.game_over then
      Except.ok
        { value := if completion = gs.word then ScoreValue.CORRECT else ScoreValue.INCORRECT
          answer := completion
          explanation := earlyExplanation gs metadata.language metadata.difficulty completion }
    else if ¬ gs.game_over then
      Except.ok
        { value := ScoreValue.INCORRECT
          answer := gs.current_state
          explanation := "The game did not complete.".toList }
    else
      Except.ok
        { value := if gs.won then ScoreValue.CORRECT else ScoreValue.INCORRECT
          answer := gs.current_state
          explanation := endedExplanation gs metadata.language metadata.difficulty }

/-- Fold a sequence of guesses over a state, keeping only the states. -/
def applyGuesses (s : GameState) (ls : List Str) : GameState :=
  ls.foldl (fun t l => (t.guess l).2) s

/-- Condition under which a call to `guess` decrements `remaining_guesses`:
the game is live and the (lowercased) input is a fresh alphabetic letter
absent from the word. -/
def isWrongNewGuess (s : GameState) (letter : Str) : Bool :=
  !s.game_over &&
    (match pyLower letter with
     | [c] => c.isAlpha && !(s.guessed_letters.contains c) && !(s.word.contains c)
     | _ => false)

/-- Boolean test that `p` matches the front of the second list. -/
def leadMatch : List Char → List Char → Bool
  | [], _ => true
  | _ :: _, [] => false
  | a :: as, b :: bs => (a == b) && leadMatch as bs

/-- Boolean test that `sub` occurs contiguously somewhere in the second list
(Python `sub in s` on strings). -/
def occursIn (sub : List Char) : List Char → Bool
  | [] => sub.isEmpty
  | b :: bs => leadMatch sub (b :: bs) || occursIn sub bs

theorem leadMatch_append (l rest : List Char) : leadMatch l (l ++ rest) = true := by
  induction l with
  | nil => rfl
  | cons a as ih => simp [leadMatch, ih]

theorem occursIn_self (sub rest : List Char) : occursIn sub (sub ++ rest) = true := by
  cases sub with
  | nil =>
    cases rest with
    | nil => rfl
    | cons b bs => simp [occursIn, leadMatch]
  | cons a as =>
    simp only [occursIn, List.cons_append, Bool.or_eq_true]
    exact Or.inl (leadMatch_append (a :: as) rest)

theorem occursIn_skip (a : List Char) {sub rest : List Char}
    (h : occursIn sub rest = true) : occursIn sub (a ++ rest) = true := by
  induction a with
  | nil => simpa using h
  | cons x xs ih => simp [occursIn, ih]

theorem guess_of_over (s : GameState) (L : Str) (h : s.game_over = true) :
    s.guess L = (none, s) := by
  simp [GameState.guess, h]

theorem guess_of_repeat (s : GameState) (L : Str) (c : Char)
    (hover : s.game_over = false) (hL : pyLower L = [c]) (ha : c.isAlpha = true)
    (hmem : c ∈ s.guessed_letters) : s.guess L = (none, s) := by
  simp [GameState.guess, hover, hL, ha, hmem]

theorem guess_of_new (s : GameState) (L : Str) (c : Char)
    (hover : s.game_over = false) (hL : pyLower L = [c]) (ha : c.isAlpha = true)
    (hmem : c ∉ s.guessed_letters) :
    s.guess L =
      (none,
       { word := s.word
         guessed_letters := s.guessed_letters ++ [c]
         remaining_guesses :=
           if c ∉ s.word then s.remaining_guesses - 1 else s.remaining_guesses
         game_over :=
           (s.word.all (fun l => decide (l ∈ s.guessed_letters ++ [c]))) ||
             decide
               ((if c ∉ s.word then s.remaining_guesses - 1 else s.remaining_guesses) ≤ 0)
         won := (s.word.all (fun l => decide (l ∈ s.guessed_letters ++ [c]))) || s.won }) := by
  unfold GameState.guess
  rw [hL]
  dsimp only
  split_ifs with h1 h2 h3 h4 h5 h6 h7 h8 h9 <;> simp_all

theorem guess_remaining_eq (s : GameState) (L : Str) :
    (s.guess L).2.remaining_guesses =
      (if isWrongNewGuess s L then s.remaining_guesses - 1 else s.remaining_guesses) := by
  by_cases hover : s.game_over = true
  · simp [guess_of_over s L hover, isWrongNewGuess, hover]
  · have hover' : s.game_over = false := by simpa using hover
    rcases hpl : pyLower L with _ | ⟨c, _ | ⟨d, t⟩⟩
    · simp [GameState.guess, isWrongNewGuess, hover', hpl]
    · by_cases ha : c.isAlpha = true
      · by_cases hmem : c ∈ s.guessed_letters
        · simp [guess_of_repeat s L c hover' hpl ha hmem, isWrongNewGuess, hover', hpl,
            ha, hmem]
        · rw [guess_of_new s L c hover' hpl ha hmem]
          by_cases hw : c ∈ s.word <;>
            simp [isWrongNewGuess, hover', hpl, ha, hmem, hw]
      · simp [GameState.guess, isWrongNewGuess, hover', hpl, ha]
    · simp [GameState.guess, isWrongNewGuess, hover', hpl]

theorem guess_remaining_le (s : GameState) (L : Str) :
    (s.guess L).2.remaining_guesses ≤ s.remaining_guesses := by
  rw [guess_remaining_eq]
  split_ifs <;> omega

theorem applyGuesses_remaining_le (s : GameState) (ls : List Str) :
    (applyGuesses s ls).remaining_guesses ≤ s.remaining_guesses := by
  induction ls generalizing s with
  | nil => simp [applyGuesses]
  | cons l ls ih =>
    calc (applyGuesses s (l :: ls)).remaining_guesses
        = (applyGuesses (s.guess l).2 ls).remaining_guesses := by simp [applyGuesses]
      _ ≤ (s.guess l).2.remaining_guesses := ih _
      _ ≤ s.remaining_guesses := guess_remaining_le s l

theorem guess_of_mem (t : GameState) (L : Str) (c : Char)
    (hL : pyLower L = [c]) (ha : c.isAlpha = true) (hmem : c ∈ t.guessed_letters) :
    t.guess L = (none, t) := by
  by_cases hover : t.game_over = true
  · exact guess_of_over t L hover
  · exact guess_of_repeat t L c (by simpa using hover) hL ha hmem

/-- Claim C1: when word guesses are allowed and the game is not over, the
scorer takes the early-guess path: it returns the early-guess score, whose
answer is the agent's final submission and whose outcome is CORRECT iff that
submission equals the stored word under exact string equality, whatever
`guessed_letters` holds. -/
theorem c1_early_guess_path (gs : GameState) (md : StoredMetadata) (completion : Str)
    (hawg : md.allow_word_guesses = true) (hover : gs.game_over = false) :
    game_scorer (some gs) md completion =
      Except.ok
        { value := if completion = gs.word then ScoreValue.CORRECT else ScoreValue.INCORRECT
          answer := completion
          explanation := earlyExplanation gs md.language md.difficulty completion } ∧
    ((if completion = gs.word then ScoreValue.CORRECT else ScoreValue.INCORRECT) =
        ScoreValue.CORRECT ↔ completion = gs.word) := by
  constructor
  · simp [game_scorer, hawg, hover]
  · by_cases h : completion = gs.word <;> simp [h]

theorem c1_early_guess_path_witness :
    game_scorer (some (GameState.mk "dog".toList ['x'] 10 false false))
        (StoredMetadata.mk "english".toList 3 true) "dog".toList =
      Except.ok
        { value := if ("dog".toList : Str) = (GameState.mk "dog".toList ['x'] 10 false false).word
                   then ScoreValue.CORRECT else ScoreValue.INCORRECT
          answer := "dog".toList
          explanation := earlyExplanation (GameState.mk "dog".toList ['x'] 10 false false)
            "english".toList 3 "dog".toList } ∧
    ((if ("dog".toList : Str) = (GameState.mk "dog".toList ['x'] 10 false false).word
        then ScoreValue.CORRECT else ScoreValue.INCORRECT) = ScoreValue.CORRECT ↔
      ("dog".toList : Str) = (GameState.mk "dog".toList ['x'] 10 false false).word) :=
  c1_early_guess_path (GameState.mk "dog".toList ['x'] 10 false false)
    (StoredMetadata.mk "english".toList 3 true) "dog".toList rfl rfl

/-- Claim C3 counterexample: on the directly constructible state with word
"a", guessed letters `['a']` and the game not over, the valid repeated guess
of `'a'` is silently ignored: after the guess every letter of the word is in
`guessed_letters`, yet `won` and `game_over` both stay false. -/
theorem c3_counterexample :
    (GameState.mk ['a'] ['a'] 5 false false).game_over = false ∧
    (pyLower ['a']).length = 1 ∧
    (pyLower ['a']).all Char.isAlpha = true ∧
    ((GameState.mk ['a'] ['a'] 5 false false).guess ['a']).2.word.all
      (fun l =>
        decide (l ∈ ((GameState.mk ['a'] ['a'] 5 false false).guess ['a']).2.guessed_letters)) =
      true ∧
    ((GameState.mk ['a'] ['a'] 5 false false).guess ['a']).2.won = false ∧
    ((GameState.mk ['a'] ['a'] 5 false false).guess ['a']).2.game_over = false := by
  decide

/-- Claim C3 (amended): for every non-over game state and every valid
single-letter guess of a letter not already in `guessed_letters`, if after
the guess every letter of the word appears in `guessed_letters`, the
resulting state has `won = true` and `game_over = true` even when
`remaining_guesses` is at most 0: the win check is evaluated before the loss
check, and the loss check never clears `won`. -/
theorem c3_win_before_loss (s : GameState) (L : Str) (c : Char)
    (hover : s.game_over = false) (hL : pyLower L = [c]) (ha : c.isAlpha = true)
    (hnew : c ∉ s.guessed_letters)
    (hwin : (s.guess L).2.word.all
      (fun l => decide (l ∈ (s.guess L).2.guessed_letters)) = true) :
    (s.guess L).2.won = true ∧ (s.guess L).2.game_over = true := by
  rw [guess_of_new s L c hover hL ha hnew] at hwin ⊢
  dsimp at hwin ⊢
  rw [hwin]
  simp

theorem c3_win_before_loss_witness :
    (GameState.mk ['a'] [] 0 false false).remaining_guesses ≤ 0 ∧
    (((GameState.mk ['a'] [] 0 false false).guess ['a']).2.won = true ∧
     ((GameState.mk ['a'] [] 0 false false).guess ['a']).2.game_over = true) :=
  ⟨by decide,
   c3_win_before_loss (GameState.mk ['a'] [] 0 false false) ['a'] 'a'
     rfl (by decide) (by decide) (by decide) (by decide)⟩

/-- Claim C4: once `game_over` is true, a further guess (directly on the
engine or through the tool) leaves `word`, `guessed_letters`,
`remaining_guesses`, `game_over` and `won` all unchanged and returns the
current state; the tool does not re-enter `guess` and simply returns the
current snapshot. -/
theorem c4_over_frame (s : GameState) (L : Str) (language : Str)
    (h : s.game_over = true) :
    (s.guess L).2.word = s.word ∧
    (s.guess L).2.guessed_letters = s.guessed_letters ∧
    (s.guess L).2.remaining_guesses = s.remaining_guesses ∧
    (s.guess L).2.game_over = s.game_over ∧
    (s.guess L).2.won = s.won ∧
    hangman_guess (some s) language L = Except.ok (s, mkSnapshot s language) := by
  rw [guess_of_over s L h]
  refine ⟨rfl, rfl, rfl, rfl, rfl, ?_⟩
  simp [hangman_guess, h]

theorem c4_over_frame_witness :
    (GameState.mk "dog".toList ['d'] 2 true false).game_over = true ∧
    (((GameState.mk "dog".toList ['d'] 2 true false).guess "a".toList).2.word =
        (GameState.mk "dog".toList ['d'] 2 true false).word ∧
     ((GameState.mk "dog".toList ['d'] 2 true false).guess "a".toList).2.guessed_letters =
        (GameState.mk "dog".toList ['d'] 2 true false).guessed_letters ∧
     ((GameState.mk "dog".toList ['d'] 2 true false).guess "a".toList).2.remaining_guesses =
        (GameState.mk "dog".toList ['d'] 2 true false).remaining_guesses ∧
     ((GameState.mk "dog".toList ['d'] 2 true false).guess "a".toList).2.game_over =
        (GameState.mk "dog".toList ['d'] 2 true false).game_over ∧
     ((GameState.mk "dog".toList ['d'] 2 true false).guess "a".toList).2.won =
        (GameState.mk "dog".toList ['d'] 2 true false).won ∧
     hangman_guess (some (GameState.mk "dog".toList ['d'] 2 true false)) "english".toList
         "a".toList =
       Except.ok (GameState.mk "dog".toList ['d'] 2 true false,
         mkSnapshot (GameState.mk "dog".toList ['d'] 2 true false) "english".toList)) :=
  ⟨rfl,
   c4_over_frame (GameState.mk "dog".toList ['d'] 2 true false) "a".toList
     "english".toList rfl⟩

/-- Claim C5: applying `guess` twice with the same valid single letter yields
exactly the state of applying it once (the second call returns that state
unchanged and without error), and a letter already present in
`guessed_letters` after lowercase normalization causes no state change. -/
theorem c5_idempotent (s : GameState) (L : Str) (c : Char)
    (hL : pyLower L = [c]) (ha : c.isAlpha = true) :
    (s.guess L).2.guess L = (none, (s.guess L).2) ∧
    (c ∈ s.guessed_letters → s.guess L = (none, s)) := by
  constructor
  · by_cases hover : s.game_over = true
    · rw [guess_of_over s L hover]
      exact guess_of_over s L hover
    · have hover' : s.game_over = false := by simpa using hover
      by_cases hmem : c ∈ s.guessed_letters
      · rw [guess_of_repeat s L c hover' hL ha hmem]
        exact guess_of_repeat s L c hover' hL ha hmem
      · rw [guess_of_new s L c hover' hL ha hmem]
        exact guess_of_mem _ L c hL ha (by simp)
  · exact fun hmem => guess_of_mem s L c hL ha hmem

theorem c5_idempotent_witness :
    pyLower "a".toList = ['a'] ∧
    Char.isAlpha 'a' = true ∧
    (((GameState.mk "cat".toList [] 3 false false).guess "a".toList).2.guess "a".toList =
       (none, ((GameState.mk "cat".toList [] 3 false false).guess "a".toList).2) ∧
     ('a' ∈ (GameState.mk "cat".toList [] 3 false false).guessed_letters →
       (GameState.mk "cat".toList [] 3 false false).guess "a".toList =
         (none, GameState.mk "cat".toList [] 3 false false))) :=
  ⟨by decide, by decide,
   c5_idempotent (GameState.mk "cat".toList [] 3 false false) "a".toList 'a'
     (by decide) (by decide)⟩

/-- Claim C6: across any sequence of guesses `remaining_guesses` never
increases, and a single call to `guess` decrements it by exactly one
precisely when a fresh alphabetic letter absent from the word is guessed on a
live game; correct guesses, repeated guesses, invalid inputs and guesses on
an already-over game leave it unchanged. -/
theorem c6_remaining_monotone (s : GameState) (L : Str) (ls : List Str) :
    (applyGuesses s ls).remaining_guesses ≤ s.remaining_guesses ∧
    (s.guess L).2.remaining_guesses =
      (if isWrongNewGuess s L then s.remaining_guesses - 1 else s.remaining_guesses) :=
  ⟨applyGuesses_remaining_le s ls, guess_remaining_eq s L⟩

/-- Claim C7: on a live game, `guess` fails with the invalid-guess error iff
the lowercased input is not exactly one alphabetic character, and on failure
the game state is left completely unchanged (the error is raised before any
mutation). -/
theorem c7_invalid_guess (s : GameState) (L : Str) (h : s.game_over = false) :
    ((s.guess L).1 = some GuessError.InvalidGuess ↔
      ¬((pyLower L).length = 1 ∧ (pyLower L).all Char.isAlpha = true)) ∧
    ((s.guess L).1 = some GuessError.InvalidGuess → (s.guess L).2 = s) := by
  rcases hpl : pyLower L with _ | ⟨c, _ | ⟨d, t⟩⟩
  · have hres : s.guess L = (some GuessError.InvalidGuess, s) := by
      simp [GameState.guess, h, hpl]
    simp [hres, hpl]
  · by_cases ha : c.isAlpha = true
    · by_cases hmem : c ∈ s.guessed_letters
      · simp [guess_of_repeat s L c h hpl ha hmem, hpl, ha]
      · rw [guess_of_new s L c h hpl ha hmem]
        simp [hpl, ha]
    · have hres : s.guess L = (some GuessError.InvalidGuess, s) := by
        simp [GameState.guess, h, hpl, ha]
      simp [hres, hpl, ha]
  · have hres : s.guess L = (some GuessError.InvalidGuess, s) := by
      simp [GameState.guess, h, hpl]
    simp [hres, hpl]

theorem c7_invalid_guess_witness :
    (GameState.mk "cat".toList [] 3 false false).game_over = false ∧
    ((((GameState.mk "cat".toList [] 3 false false).guess ['z', 'z']).1 =
        some GuessError.InvalidGuess ↔
      ¬((pyLower ['z', 'z']).length = 1 ∧ (pyLower ['z', 'z']).all Char.isAlpha = true)) ∧
     (((GameState.mk "cat".toList [] 3 false false).guess ['z', 'z']).1 =
        some GuessError.InvalidGuess →
      ((GameState.mk "cat".toList [] 3 false false).guess ['z', 'z']).2 =
        GameState.mk "cat".toList [] 3 false false)) :=
  ⟨rfl, c7_invalid_guess (GameState.mk "cat".toList [] 3 false false) ['z', 'z'] rfl⟩

/-- Claim C8: `current_state` is the space-joined per-letter projection of
the word in which each letter is shown iff it is in `guessed_letters` and is
`'_'` otherwise; the number of displayed positions equals the word length,
and a guessed letter that does not belong to the word does not affect the
display. -/
theorem c8_display (s : GameState) (c : Char) (hc : c ∉ s.word) :
    s.current_state =
      List.intercalate [' ']
        (s.word.map (fun letter => if letter ∈ s.guessed_letters then [letter] else ['_'])) ∧
    s.displayTokens.length = s.word.length ∧
    GameState.current_state
        { s with guessed_letters := s.guessed_letters ++ [c] } = s.current_state := by
  refine ⟨rfl, by simp [GameState.displayTokens], ?_⟩
  unfold GameState.current_state GameState.displayTokens
  congr 1
  apply List.map_congr_left
  intro letter hletter
  have hne : letter ≠ c := fun he => hc (he ▸ hletter)
  by_cases hmem : letter ∈ s.guessed_letters <;> simp [hmem, hne]

theorem c8_display_witness :
    'z' ∉ (GameState.mk "cat".toList ['a'] 3 false false).word ∧
    ((GameState.mk "cat".toList ['a'] 3 false false).current_state =
       List.intercalate [' ']
         ((GameState.mk "cat".toList ['a'] 3 false false).word.map
           (fun letter =>
             if letter ∈ (GameState.mk "cat".toList ['a'] 3 false false).guessed_letters
             then [letter] else ['_'])) ∧
     (GameState.mk "cat".toList ['a'] 3 false false).displayTokens.length =
       (GameState.mk "cat".toList ['a'] 3 false false).word.length ∧
     GameState.current_state
         { GameState.mk "cat".toList ['a'] 3 false false with
           guessed_letters :=
             (GameState.mk "cat".toList ['a'] 3 false false).guessed_letters ++ ['z'] } =
       (GameState.mk "cat".toList ['a'] 3 false false).current_state) :=
  ⟨by decide, c8_display (GameState.mk "cat".toList ['a'] 3 false false) 'z' (by decide)⟩

/-- Claim C9: `game_initialiser` fails with the missing-word error exactly
when the metadata carries no word or an empty-string word; in that case it
returns no game state at all, so no agent turn or scoring can use one. -/
theorem c9_missing_word (md : Metadata) :
    game_initialiser md = Except.error InitError.MissingWord ↔
      md.word = none ∨ md.word = some [] := by
  rcases hw : md.word with _ | w
  · simp [game_initialiser, hw]
  · by_cases hempty : w = []
    · subst hempty
      simp [game_initialiser, hw]
    · simp [game_initialiser, hw, hempty]

/-- Claim C10: once the game is over, `guess` accepts any string at all --
empty, long, or non-alphabetic -- and returns the state unchanged with no
error: the game-over check precedes input validation. -/
theorem c10_over_skips_validation (s : GameState) (L : Str) (h : s.game_over = true) :
    s.guess L = (none, s) :=
  guess_of_over s L h

theorem c10_over_skips_validation_witness :
    (GameState.mk "dog".toList [] 0 true false).game_over = true ∧
    (GameState.mk "dog".toList [] 0 true false).guess "not one letter!".toList =
      (none, GameState.mk "dog".toList [] 0 true false) :=
  ⟨rfl,
   c10_over_skips_validation (GameState.mk "dog".toList [] 0 true false)
     "not one letter!".toList rfl⟩

/-- Claim C2 counterexample: for the never-completed branch the claim fails.
On a live game with word "dog", word guesses disabled, the scorer returns the
fixed explanation "The game did not complete.", which does not contain the
secret word (nor the language, difficulty, guesses, display or remaining
count). -/
theorem c2_counterexample :
    game_scorer (some (GameState.mk "dog".toList [] 10 false false))
        (StoredMetadata.mk "english".toList 3 false) "GG".toList =
      Except.ok
        (Score.mk ScoreValue.INCORRECT
          (GameState.mk "dog".toList [] 10 false false).current_state
          "The game did not complete.".toList) ∧
    occursIn "dog".toList "The game did not complete.".toList = false := by
  constructor
  · rfl
  · decide

/-- Claim C2 (amended): the early-guess branch and the game-completed branch
produce explanations containing the secret word, the language, the
difficulty, the guessed-letters sequence, the final display string and the
remaining-guesses count; the branch for a game that never reached
`game_over` instead returns the fixed explanation text
"The game did not complete.", which contains none of them. -/
theorem c2_explanation_contents (gs : GameState) (md : StoredMetadata) (completion : Str) :
    (md.allow_word_guesses = true → gs.game_over = false →
      game_scorer (some gs) md completion =
        Except.ok
          (Score.mk
            (if completion = gs.word then ScoreValue.CORRECT else ScoreValue.INCORRECT)
            completion
            (earlyExplanation gs md.language md.difficulty completion)) ∧
      occursIn gs.word (earlyExplanation gs md.language md.difficulty completion) = true ∧
      occursIn md.language (earlyExplanation gs md.language md.difficulty completion) = true ∧
      occursIn (pyStrInt md.difficulty)
        (earlyExplanation gs md.language md.difficulty completion) = true ∧
      occursIn (pyReprStrList gs.guessed_letters)
        (earlyExplanation gs md.language md.difficulty completion) = true ∧
      occursIn gs.current_state
        (earlyExplanation gs md.language md.difficulty completion) = true ∧
      occursIn (pyStrInt gs.remaining_guesses)
        (earlyExplanation gs md.language md.difficulty completion) = true) ∧
    (gs.game_over = true →
      game_scorer (some gs) md completion =
        Except.ok
          (Score.mk (if gs.won then ScoreValue.CORRECT else ScoreValue.INCORRECT)
            gs.current_state
            (endedExplanation gs md.language md.difficulty)) ∧
      occursIn gs.word (endedExplanation gs md.language md.difficulty) = true ∧
      occursIn md.language (endedExplanation gs md.language md.difficulty) = true ∧
      occursIn (pyStrInt md.difficulty)
        (endedExplanation gs md.language md.difficulty) = true ∧
      occursIn (pyReprStrList gs.guessed_letters)
        (endedExplanation gs md.language md.difficulty) = true ∧
      occursIn gs.current_state (endedExplanation gs md.language md.difficulty) = true ∧
      occursIn (pyStrInt gs.remaining_guesses)
        (endedExplanation gs md.language md.difficulty) = true) ∧
    (md.allow_word_guesses = false → gs.game_over = false →
      game_scorer (some gs) md completion =
        Except.ok
          (Score.mk ScoreValue.INCORRECT gs.current_state
            "The game did not complete.".toList)) := by
  refine ⟨fun hawg hover => ?_, fun hover => ?_, fun hawg hover => ?_⟩
  · refine ⟨by simp [game_scorer, hawg, hover], ?_, ?_, ?_, ?_, ?_, ?_⟩
    · simp only [earlyExplanation, List.append_assoc]
      iterate 1 apply occursIn_skip
      exact occursIn_self _ _
    · simp only [earlyExplanation, List.append_assoc]
      iterate 3 apply occursIn_skip
      exact occursIn_self _ _
    · simp only [earlyExplanation, List.append_assoc]
      iterate 6 apply occursIn_skip
      exact occursIn_self _ _
    · simp only [earlyExplanation, List.append_assoc]
      iterate 12 apply occursIn_skip
      exact occursIn_self _ _
    · simp only [earlyExplanation, List.append_assoc]
      iterate 15 apply occursIn_skip
      exact occursIn_self _ _
    · simp only [earlyExplanation, List.append_assoc]
      iterate 18 apply occursIn_skip
      exact occursIn_self _ _
  · refine ⟨by simp [game_scorer, hover], ?_, ?_, ?_, ?_, ?_, ?_⟩
    · simp only [endedExplanation, List.append_assoc]
      iterate 1 apply occursIn_skip
      exact occursIn_self _ _
    · simp only [endedExplanation, List.append_assoc]
      iterate 3 apply occursIn_skip
      exact occursIn_self _ _
    · simp only [endedExplanation, List.append_assoc]
      iterate 6 apply occursIn_skip
      exact occursIn_self _ _
    · simp only [endedExplanation, List.append_assoc]
      iterate 12 apply occursIn_skip
      exact occursIn_self _ _
    · simp only [endedExplanation, List.append_assoc]
      iterate 15 apply occursIn_skip
      exact occursIn_self _ _
    · simp only [endedExplanation, List.append_assoc]
      iterate 18 apply occursIn_skip
      exact occursIn_self _ _
  · simp [game_scorer, hawg, hover]

theorem c2_explanation_contents_witness :
    (GameState.mk "dog".toList ['d', 'o', 'g'] 10 true true).game_over = true ∧
    occursIn (GameState.mk "dog".toList ['d', 'o', 'g'] 10 true true).word
      (endedExplanation (GameState.mk "dog".toList ['d', 'o', 'g'] 10 true true)
        "english".toList 3) = true :=
  ⟨rfl,
   (((c2_explanation_contents (GameState.mk "dog".toList ['d', 'o', 'g'] 10 true true)
       (StoredMetadata.mk "english".toList 3 false) "GG".toList).2.1 rfl).2.1)⟩
